import Mathlib

/-!
Shallow embedding of `tangods_serialline/core.py` (the Serial core of the
ALBA tango_serial device server) and verification of its specification.

Modelling conventions:
* a Python byte is a `Nat` (values 0-255 in practice);
* the pyserial channel `self._com` is modelled by its configurable fields
  plus `drains`, the list of byte chunks that successive `read_all()` calls
  will return; once the list is exhausted every further `read_all()` yields
  no bytes (a quiescent channel);
* Python in-place mutation of `self` is explicit state passing; a raised
  exception still leaves the mutations performed before the raise, so the
  error constructors carry the (possibly mutated) state;
* the float `timeout` is modelled as `Rat` (`value / 1000.0` is exact).
-/

abbrev Byte := Nat

/-- pyserial parity constants `serial.PARITY_NONE` / `PARITY_EVEN` / `PARITY_ODD`. -/
inductive PyParity where
  | PARITY_NONE
  | PARITY_EVEN
  | PARITY_ODD
deriving DecidableEq, Repr

/-- pyserial stop-bit constants. -/
inductive PyStopbits where
  | STOPBITS_ONE
  | STOPBITS_TWO
  | STOPBITS_ONE_POINT_FIVE
deriving DecidableEq, Repr

/-- pyserial byte-size constants. -/
inductive PyBytesize where
  | FIVEBITS
  | SIXBITS
  | SEVENBITS
  | EIGHTBITS
deriving DecidableEq, Repr

/-- The pyserial channel object `self._com`: its live configuration fields and
the pending input, modelled as the list of byte chunks that successive
`read_all()` calls will return. -/
structure Com where
  timeout : Rat
  parity : PyParity
  stopbits : PyStopbits
  bytesize : PyBytesize
  baudrate : Int
  drains : List (List Byte)
deriving DecidableEq, Repr

/-- `self._com.read_all()`: one non-blocking drain, returning whatever chunk is
currently pending (the head of `drains`) or no bytes when the channel is
quiescent. -/
def Com.read_all (c : Com) : List Byte × Com :=
  match c.drains with
  | [] => ([], c)
  | d :: ds => (d, { c with drains := ds })

/-- The `Serial` object of `core.py`: the configured newline byte
(`self._newline`, a one-byte ascii encoding), the accumulator
`self.read_buffer`, and the channel `self._com`. -/
structure Serial where
  newline : Byte
  read_buffer : List Byte
  com : Com
deriving DecidableEq, Repr

/-- Result of a configuration call: on an exception the state reached so far is
kept (Python mutates `self` in place, a raise does not roll it back). -/
inductive SetResult where
  | ok (s : Serial)
  | err (msg : String) (s : Serial)
deriving DecidableEq, Repr

/-- Result of `Serial.read`: the returned bytes and the new state, or the
exception message together with the state left behind by the failed call. -/
inductive ReadResult where
  | ok (ret : List Byte) (s : Serial)
  | err (msg : String) (s : Serial)
deriving DecidableEq, Repr

/-- The `Parity` enum of `core.py`: `No = 0`, `Odd = 1`, `Even = 3`. -/
inductive Parity where
  | No
  | Odd
  | Even
deriving DecidableEq, Repr

/-- The Python enum call `Parity(value)`: `none` models the `ValueError` raised
when `value` is not a member value. -/
def Parity.ofValue (v : Int) : Option Parity :=
  if v = 0 then some .No
  else if v = 1 then some .Odd
  else if v = 3 then some .Even
  else none

/-- The `Charlength` enum of `core.py`:
`Data8 = 0`, `Data7 = 1`, `Data6 = 2`, `Data5 = 3`. -/
inductive Charlength where
  | Data8
  | Data7
  | Data6
  | Data5
deriving DecidableEq, Repr

/-- The Python enum call `Charlength(value)`. -/
def Charlength.ofValue (v : Int) : Option Charlength :=
  if v = 0 then some .Data8
  else if v = 1 then some .Data7
  else if v = 2 then some .Data6
  else if v = 3 then some .Data5
  else none

/-- The `Stopbits` enum of `core.py`: `One = 0`, `OneAndHalf = 1`, `Two = 2`. -/
inductive Stopbits where
  | One
  | OneAndHalf
  | Two
deriving DecidableEq, Repr

/-- The Python enum call `Stopbits(value)`. -/
def Stopbits.ofValue (v : Int) : Option Stopbits :=
  if v = 0 then some .One
  else if v = 1 then some .OneAndHalf
  else if v = 2 then some .Two
  else none

/-- `Serial.set_newline` (core.py 166-168): `self._newline =
chr(value).encode('ascii')`. `chr` raises `ValueError` outside
`0 ≤ value < 0x110000`, and `.encode('ascii')` raises `UnicodeEncodeError`
for code points above 127; in both cases nothing is assigned. -/
def Serial.set_newline (s : Serial) (value : Int) : SetResult :=
  if value < 0 ∨ 1114112 ≤ value then
    SetResult.err "ValueError" s
  else if value < 128 then
    SetResult.ok { s with newline := value.toNat }
  else
    SetResult.err "UnicodeEncodeError" s

/-- `Serial.set_timeout` (core.py 170-172): `self._com.timeout = value / 1000.0`. -/
def Serial.set_timeout (s : Serial) (value : Int) : SetResult :=
  SetResult.ok { s with com := { s.com with timeout := (value : Rat) / 1000 } }

/-- `Serial.set_parity` (core.py 174-186): dispatch on the `Parity` member; the
`else raise ValueError` branch of the source is unreachable for actual enum
members, which are the only well-typed arguments. -/
def Serial.set_parity (s : Serial) (value : Parity) : SetResult :=
  match value with
  | .No => SetResult.ok { s with com := { s.com with parity := .PARITY_NONE } }
  | .Even => SetResult.ok { s with com := { s.com with parity := .PARITY_EVEN } }
  | .Odd => SetResult.ok { s with com := { s.com with parity := .PARITY_ODD } }

/-- `Serial.set_stopbits` (core.py 188-198). -/
def Serial.set_stopbits (s : Serial) (value : Stopbits) : SetResult :=
  match value with
  | .One => SetResult.ok { s with com := { s.com with stopbits := .STOPBITS_ONE } }
  | .Two => SetResult.ok { s with com := { s.com with stopbits := .STOPBITS_TWO } }
  | .OneAndHalf =>
      SetResult.ok { s with com := { s.com with stopbits := .STOPBITS_ONE_POINT_FIVE } }

/-- `Serial.set_charlength` (core.py 200-213). -/
def Serial.set_charlength (s : Serial) (value : Charlength) : SetResult :=
  match value with
  | .Data5 => SetResult.ok { s with com := { s.com with bytesize := .FIVEBITS } }
  | .Data6 => SetResult.ok { s with com := { s.com with bytesize := .SIXBITS } }
  | .Data7 => SetResult.ok { s with com := { s.com with bytesize := .SEVENBITS } }
  | .Data8 => SetResult.ok { s with com := { s.com with bytesize := .EIGHTBITS } }

/-- `Serial.set_baudrate` (core.py 215-217): `self._com.baudrate = value`, with
no validation in the core. -/
def Serial.set_baudrate (s : Serial) (value : Int) : SetResult :=
  SetResult.ok { s with com := { s.com with baudrate := value } }

/-- The raw-integer entry into `set_parity` used by `set_parameter` (core.py
260): `self.set_parity(Parity(value))`; the enum construction raises
`ValueError` before the setter runs when `value` is not a member. -/
def Serial.set_parity_value (s : Serial) (v : Int) : SetResult :=
  match Parity.ofValue v with
  | some p => s.set_parity p
  | none => SetResult.err "ValueError: not a valid Parity" s

/-- The raw-integer entry into `set_stopbits` used by `set_parameter` (core.py
262). -/
def Serial.set_stopbits_value (s : Serial) (v : Int) : SetResult :=
  match Stopbits.ofValue v with
  | some p => s.set_stopbits p
  | none => SetResult.err "ValueError: not a valid Stopbits" s

/-- The raw-integer entry into `set_charlength` used by `set_parameter`
(core.py 258). -/
def Serial.set_charlength_value (s : Serial) (v : Int) : SetResult :=
  match Charlength.ofValue v with
  | some p => s.set_charlength p
  | none => SetResult.err "ValueError: not a valid Charlength" s

/-- One iteration of the `set_parameter` loop body (core.py 252-264): six
independent `if` tests against the `Parameter` tag values `Timeout = 3`,
`Parity = 4`, `Charlength = 5`, `Stopbits = 6`, `Baudrate = 7`, `Newline = 8`
(tested in source order Newline, Baudrate, Charlength, Parity, Stopbits,
Timeout); the tags are pairwise distinct so at most one test fires, and a tag
matching none of them falls through with no effect. -/
def Serial.set_parameter_step (s : Serial) (tag value : Int) : SetResult :=
  if tag = 8 then s.set_newline value
  else if tag = 7 then s.set_baudrate value
  else if tag = 5 then s.set_charlength_value value
  else if tag = 4 then s.set_parity_value value
  else if tag = 6 then s.set_stopbits_value value
  else if tag = 3 then s.set_timeout value
  else SetResult.ok s

/-- `Serial.set_parameter` (core.py 251-264): fold the `(tag, value)` pairs in
order; an exception raised by a setter propagates, stopping the loop with the
state mutated so far. -/
def Serial.set_parameter (s : Serial) : List (Int × Int) → SetResult
  | [] => SetResult.ok s
  | (tag, value) :: rest =>
    match s.set_parameter_step tag value with
    | SetResult.ok s' => s'.set_parameter rest
    | SetResult.err m s' => SetResult.err m s'

/-- `bytearray.partition` with the one-byte separator `nl`, keeping the pieces
the source keeps (core.py 289): the part before the first occurrence of `nl`
and the part after it; when `nl` does not occur, the pair is the whole list
and the empty list, matching `partition`'s `(whole, empty, empty)`. -/
def partitionByte (nl : Byte) : List Byte → List Byte × List Byte
  | [] => ([], [])
  | b :: bs =>
    if b = nl then ([], bs)
    else
      let p := partitionByte nl bs
      (b :: p.1, p.2)

/-- The `for i in range(nretry)` loop of Retry mode (core.py 297-303): each
iteration drains the channel, appends the chunk to the buffer, and breaks when
the chunk is empty. -/
def Serial.retry_loop : Nat → List Byte → Com → List Byte × Com
  | 0, buf, com => (buf, com)
  | n + 1, buf, com =>
    let buff := com.read_all.1
    let com' := com.read_all.2
    let buf' := buf ++ buff
    if buff = [] then (buf', com')
    else Serial.retry_loop n buf' com'

/-- `Serial.read` (core.py 266-306). The call first drains the channel into
`self.read_buffer` (line 272), decodes the mode tag as `argin & 0x000f`
(line 274) and dispatches; an unknown tag raises after the drain already
mutated the buffer, and `nretry = (argin >> 8) - 1` is only used as a
`range` bound, where Python's empty `range(-1)` coincides with the truncated
`Nat` subtraction. -/
def Serial.read (s : Serial) (argin : Nat) : ReadResult :=
  let drained := s.com.read_all.1
  let com' := s.com.read_all.2
  let buf := s.read_buffer ++ drained
  let read_type := argin &&& 15
  if read_type = 0 then
    ReadResult.ok (buf ++ [0]) { s with read_buffer := [], com := com' }
  else if read_type = 1 then
    let nchar := argin >>> 8
    ReadResult.ok (buf.take nchar) { s with read_buffer := buf.drop nchar, com := com' }
  else if read_type = 2 then
    let p := partitionByte s.newline buf
    ReadResult.ok p.1 { s with read_buffer := p.2, com := com' }
  else if read_type = 3 then
    let nretry := argin >>> 8 - 1
    let r := Serial.retry_loop nretry buf com'
    ReadResult.ok r.1 { s with read_buffer := r.1, com := r.2 }
  else
    ReadResult.err "Error in the read type" { s with read_buffer := buf, com := com' }

/-- Retry-mode read as the specification words it (spec §4.2): after the
initial drain, up to `attempts` additional non-blocking drains, stopping
early the first time a drain yields zero bytes, appending each drain's bytes
to the buffer; returns the full buffer contents without consuming them. -/
def spec_retry_loop : Nat → List Byte → Com → List Byte × Com
  | 0, buf, com => (buf, com)
  | n + 1, buf, com =>
    let buff := com.read_all.1
    let com' := com.read_all.2
    if buff = [] then (buf, com')
    else spec_retry_loop n (buf ++ buff) com'

/-- The whole spec-worded Retry read: initial drain, then `spec_retry_loop`
for the given number of additional attempts; the result is returned and kept
in the buffer. -/
def spec_retry_read (s : Serial) (attempts : Nat) : ReadResult :=
  let drained := s.com.read_all.1
  let com' := s.com.read_all.2
  let buf := s.read_buffer ++ drained
  let r := spec_retry_loop attempts buf com'
  ReadResult.ok r.1 { s with read_buffer := r.1, com := r.2 }

/-- A quiescent channel configuration used by concrete instances. -/
def com0 : Com :=
  { timeout := 1, parity := .PARITY_NONE, stopbits := .STOPBITS_ONE,
    bytesize := .EIGHTBITS, baudrate := 9600, drains := [] }

/-- A concrete `Serial` state with an empty buffer and a quiescent channel. -/
def serial0 : Serial :=
  { newline := 10, read_buffer := [], com := com0 }

/-- `serial0` after a successful baud-rate change to 115200. -/
def serial1 : Serial :=
  { serial0 with com := { serial0.com with baudrate := 115200 } }

/-- A concrete state whose channel still holds three pending one-byte chunks. -/
def c1state : Serial :=
  { newline := 10, read_buffer := [], com := { com0 with drains := [[1], [2], [3]] } }

/-- A concrete state with two buffered bytes and a quiescent channel. -/
def c2state : Serial :=
  { newline := 10, read_buffer := [65, 66], com := com0 }

/-- A concrete state buffering the bytes of `"AB\nCD\nEF"` with newline 10. -/
def c6state : Serial :=
  { newline := 10, read_buffer := [65, 66, 10, 67, 68, 10, 69, 70], com := com0 }

/-! ## Helper lemmas -/

/-- When the separator does not occur, `partitionByte` keeps the whole list. -/
theorem partitionByte_of_not_mem (nl : Byte) (l : List Byte) (h : nl ∉ l) :
    partitionByte nl l = (l, []) := by
  induction l with
  | nil => rfl
  | cons b bs ih =>
    simp only [List.mem_cons, not_or] at h
    have hb : ¬b = nl := fun hc => h.1 hc.symm
    simp [partitionByte, hb, ih h.2]

/-- When the separator occurs, `partitionByte` splits at its first
occurrence: the pieces reassemble around one separator byte and the first
piece is separator-free. -/
theorem partitionByte_of_mem (nl : Byte) (l : List Byte) (h : nl ∈ l) :
    (partitionByte nl l).1 ++ nl :: (partitionByte nl l).2 = l ∧
      nl ∉ (partitionByte nl l).1 := by
  induction l with
  | nil => cases h
  | cons b bs ih =>
    by_cases hb : b = nl
    · subst hb
      simp [partitionByte]
    · have hmem : nl ∈ bs := by
        rcases List.mem_cons.mp h with h1 | h1
        · exact absurd h1.symm hb
        · exact h1
      have := ih hmem
      constructor
      · simp [partitionByte, hb, this.1]
      · simp only [partitionByte, hb, if_false, List.mem_cons, not_or]
        exact ⟨fun hc => hb hc.symm, this.2⟩

/-- The two pieces of `partitionByte` always reassemble into the input, with
the separator byte in between exactly when it occurred. -/
theorem partitionByte_append (nl : Byte) (l : List Byte) :
    (partitionByte nl l).1 ++ (partitionByte nl l).2 = l ∨
      (partitionByte nl l).1 ++ nl :: (partitionByte nl l).2 = l := by
  by_cases h : nl ∈ l
  · exact Or.inr (partitionByte_of_mem nl l h).1
  · left
    rw [partitionByte_of_not_mem nl l h]
    simp

/-- The source's Retry loop and the spec-worded Retry loop agree: appending an
empty chunk before breaking changes nothing. -/
theorem retry_loop_eq_spec_loop (n : Nat) (buf : List Byte) (com : Com) :
    Serial.retry_loop n buf com = spec_retry_loop n buf com := by
  induction n generalizing buf com with
  | zero => rfl
  | succ n ih =>
    simp only [Serial.retry_loop, spec_retry_loop]
    by_cases h : com.read_all.1 = []
    · simp [h]
    · simp [h, ih]

/-- A failing `set_newline` leaves the state untouched. -/
theorem set_newline_err_state (s s' : Serial) (m : String) (v : Int)
    (h : s.set_newline v = SetResult.err m s') : s' = s := by
  unfold Serial.set_newline at h
  split at h
  · cases h; rfl
  · split at h
    · cases h
    · cases h; rfl

/-- A failing `set_parity_value` leaves the state untouched. -/
theorem set_parity_value_err_state (s s' : Serial) (m : String) (v : Int)
    (h : s.set_parity_value v = SetResult.err m s') : s' = s := by
  unfold Serial.set_parity_value at h
  rcases hp : Parity.ofValue v with _ | p
  · rw [hp] at h
    cases h; rfl
  · rw [hp] at h
    cases p <;> simp [Serial.set_parity] at h

/-- A failing `set_stopbits_value` leaves the state untouched. -/
theorem set_stopbits_value_err_state (s s' : Serial) (m : String) (v : Int)
    (h : s.set_stopbits_value v = SetResult.err m s') : s' = s := by
  unfold Serial.set_stopbits_value at h
  rcases hp : Stopbits.ofValue v with _ | p
  · rw [hp] at h
    cases h; rfl
  · rw [hp] at h
    cases p <;> simp [Serial.set_stopbits] at h

/-- A failing `set_charlength_value` leaves the state untouched. -/
theorem set_charlength_value_err_state (s s' : Serial) (m : String) (v : Int)
    (h : s.set_charlength_value v = SetResult.err m s') : s' = s := by
  unfold Serial.set_charlength_value at h
  rcases hp : Charlength.ofValue v with _ | p
  · rw [hp] at h
    cases h; rfl
  · rw [hp] at h
    cases p <;> simp [Serial.set_charlength] at h

/-- A failing `set_parameter` loop iteration leaves the state untouched. -/
theorem set_parameter_step_err_state (s s' : Serial) (m : String) (tag v : Int)
    (h : s.set_parameter_step tag v = SetResult.err m s') : s' = s := by
  unfold Serial.set_parameter_step at h
  split at h
  · exact set_newline_err_state s s' m v h
  · split at h
    · simp [Serial.set_baudrate] at h
    · split at h
      · exact set_charlength_value_err_state s s' m v h
      · split at h
        · exact set_parity_value_err_state s s' m v h
        · split at h
          · exact set_stopbits_value_err_state s s' m v h
          · split at h
            · simp [Serial.set_timeout] at h
            · cases h

/-! ## Claim theorems -/

/-- C7: for every ReadBuffer contents, `read` in Raw mode returns the entire
current buffer contents (after the initial drain) with exactly one trailing
NUL byte appended, and leaves the ReadBuffer empty. -/
theorem read_raw_spec (s : Serial) (argin : Nat) (h : argin &&& 15 = 0) :
    s.read argin =
      ReadResult.ok (s.read_buffer ++ s.com.read_all.1 ++ [0])
        { s with read_buffer := [], com := s.com.read_all.2 } := by
  simp [Serial.read, h]

/-- Witness for C7: Raw read of the buffered bytes of `"AB\nCD\nEF"` on a
quiescent channel. -/
theorem read_raw_spec_witness :
    c6state.read 0 =
      ReadResult.ok ([65, 66, 10, 67, 68, 10, 69, 70] ++ [0])
        { c6state with read_buffer := [], com := c6state.com.read_all.2 } :=
  read_raw_spec c6state 0 (by decide)

/-- C8: for every `n` and every ReadBuffer of length `L`, `read` in NChar(n)
mode returns exactly the first `min n L` bytes of the (post-drain) buffer,
removes them from the front, and leaves `L - n` bytes buffered (truncated
subtraction, i.e. `max (L-n) 0`). -/
theorem read_nchar_spec (s : Serial) (argin : Nat) (h : argin &&& 15 = 1) :
    ∃ ret s', s.read argin = ReadResult.ok ret s' ∧
      ret = (s.read_buffer ++ s.com.read_all.1).take (argin >>> 8) ∧
      s'.read_buffer = (s.read_buffer ++ s.com.read_all.1).drop (argin >>> 8) ∧
      ret.length = min (argin >>> 8) (s.read_buffer ++ s.com.read_all.1).length ∧
      s'.read_buffer.length = (s.read_buffer ++ s.com.read_all.1).length - (argin >>> 8) ∧
      ret ++ s'.read_buffer = s.read_buffer ++ s.com.read_all.1 := by
  have hread : s.read argin =
      ReadResult.ok ((s.read_buffer ++ s.com.read_all.1).take (argin >>> 8))
        { s with read_buffer := (s.read_buffer ++ s.com.read_all.1).drop (argin >>> 8),
                 com := s.com.read_all.2 } := by
    simp [Serial.read, h]
  exact ⟨_, _, hread, rfl, rfl, by simp, by simp, List.take_append_drop _ _⟩

/-- Witness for C8: NChar(3) on the buffered `"AB\nCD\nEF"` state
(`argin = 1 ||| (3 <<< 8) = 769`). -/
theorem read_nchar_spec_witness :
    ∃ ret s', c6state.read 769 = ReadResult.ok ret s' ∧
      ret = (c6state.read_buffer ++ c6state.com.read_all.1).take (769 >>> 8) ∧
      s'.read_buffer = (c6state.read_buffer ++ c6state.com.read_all.1).drop (769 >>> 8) ∧
      ret.length = min (769 >>> 8) (c6state.read_buffer ++ c6state.com.read_all.1).length ∧
      s'.read_buffer.length =
        (c6state.read_buffer ++ c6state.com.read_all.1).length - (769 >>> 8) ∧
      ret ++ s'.read_buffer = c6state.read_buffer ++ c6state.com.read_all.1 :=
  read_nchar_spec c6state 769 (by decide)

/-- C6: for every ReadBuffer contents, `read` in Line mode splits the
(post-drain) buffer at the first occurrence of the configured newline byte,
returns the portion before it (separator excluded, newline-free) and retains
exactly the portion after the separator; with no newline present the whole
buffer is returned and the buffer becomes empty. -/
theorem read_line_split (s : Serial) (argin : Nat) (h : argin &&& 15 = 2) :
    ∃ ret s', s.read argin = ReadResult.ok ret s' ∧
      (s.newline ∉ s.read_buffer ++ s.com.read_all.1 →
        ret = s.read_buffer ++ s.com.read_all.1 ∧ s'.read_buffer = []) ∧
      (s.newline ∈ s.read_buffer ++ s.com.read_all.1 →
        ret ++ s.newline :: s'.read_buffer = s.read_buffer ++ s.com.read_all.1 ∧
        s.newline ∉ ret) := by
  have hread : s.read argin =
      ReadResult.ok (partitionByte s.newline (s.read_buffer ++ s.com.read_all.1)).1
        { s with
            read_buffer := (partitionByte s.newline (s.read_buffer ++ s.com.read_all.1)).2,
            com := s.com.read_all.2 } := by
    simp [Serial.read, h]
  refine ⟨_, _, hread, fun hnot => ?_, fun hmem => ?_⟩
  · rw [partitionByte_of_not_mem s.newline _ hnot]
    exact ⟨rfl, rfl⟩
  · exact ⟨(partitionByte_of_mem s.newline _ hmem).1,
      (partitionByte_of_mem s.newline _ hmem).2⟩

/-- Witness for C6: Line read on the buffered bytes of `"AB\nCD\nEF"` with
newline 10, plus the concrete two-successive-reads example: the first read
yields `"AB"`, the second `"CD"`, leaving `"EF"` buffered. -/
theorem read_line_split_witness :
    c6state.read 2 =
      ReadResult.ok [65, 66] { c6state with read_buffer := [67, 68, 10, 69, 70] } ∧
    ({ c6state with read_buffer := [67, 68, 10, 69, 70] } : Serial).read 2 =
      ReadResult.ok [67, 68] { c6state with read_buffer := [69, 70] } ∧
    (∃ ret s', c6state.read 2 = ReadResult.ok ret s' ∧
      (c6state.newline ∉ c6state.read_buffer ++ c6state.com.read_all.1 →
        ret = c6state.read_buffer ++ c6state.com.read_all.1 ∧ s'.read_buffer = []) ∧
      (c6state.newline ∈ c6state.read_buffer ++ c6state.com.read_all.1 →
        ret ++ c6state.newline :: s'.read_buffer =
          c6state.read_buffer ++ c6state.com.read_all.1 ∧
        c6state.newline ∉ ret)) :=
  ⟨by decide, by decide, read_line_split c6state 2 (by decide)⟩

/-- C10: when `read` is called with a mode tag outside 0-3, it fails only
after performing the initial drain: the ReadBuffer after the failed call is
the buffer before the call with the newly drained bytes appended, and the
channel has advanced by exactly that one drain. -/
theorem read_unknown_mode_err_state (s : Serial) (argin : Nat)
    (h0 : argin &&& 15 ≠ 0) (h1 : argin &&& 15 ≠ 1)
    (h2 : argin &&& 15 ≠ 2) (h3 : argin &&& 15 ≠ 3) :
    s.read argin =
      ReadResult.err "Error in the read type"
        { s with read_buffer := s.read_buffer ++ s.com.read_all.1,
                 com := s.com.read_all.2 } := by
  simp [Serial.read, h0, h1, h2, h3]

/-- Witness for C10: mode tag 5 on the state with three pending chunks; the
drained chunk `[1]` is kept in the buffer of the failed call. -/
theorem read_unknown_mode_err_state_witness :
    c1state.read 5 =
      ReadResult.err "Error in the read type"
        { c1state with read_buffer := c1state.read_buffer ++ c1state.com.read_all.1,
                       com := c1state.com.read_all.2 } :=
  read_unknown_mode_err_state c1state 5 (by decide) (by decide) (by decide) (by decide)

/-- C1 counterexample: the claim reads Retry's packed argument `k = argin >>> 8`
as the number of additional drains, i.e. `read` in Retry mode should equal
`spec_retry_read` at `k`. At `argin = 515` (tag 3, `k = 2`) on a channel with
three pending chunks the code performs only one additional drain and returns
`[1, 2]`, while the claimed behavior accumulates `[1, 2, 3]`. -/
theorem retry_attempts_counterexample :
    c1state.read 515 ≠ spec_retry_read c1state 2 ∧
    c1state.read 515 =
      ReadResult.ok [1, 2]
        { c1state with read_buffer := [1, 2],
                       com := { c1state.com with drains := [[3]] } } ∧
    spec_retry_read c1state 2 =
      ReadResult.ok [1, 2, 3]
        { c1state with read_buffer := [1, 2, 3],
                       com := { c1state.com with drains := [] } } :=
  ⟨by decide, by decide, by decide⟩

/-- C1 (amended): for every attempts value `k` decoded from the packed
argument, `read` in Retry mode performs, after the initial drain, up to
`k - 1` (truncated at zero) additional non-blocking drains, appending each
drain's bytes to the ReadBuffer and stopping early the first time a drain
yields zero bytes; it returns the full ReadBuffer contents without consuming
them; `k` of zero or one performs the initial drain only. Stated as equality
with the spec-worded Retry read at `k - 1`. -/
theorem read_retry_attempts_amended (s : Serial) (argin : Nat)
    (h : argin &&& 15 = 3) :
    s.read argin = spec_retry_read s (argin >>> 8 - 1) := by
  simp [Serial.read, h, spec_retry_read, retry_loop_eq_spec_loop]

/-- Witness for C1 (amended): `argin = 515` decodes to attempts field 2, and
the Retry read equals the spec-worded read with one additional drain. -/
theorem read_retry_attempts_amended_witness :
    c1state.read 515 = spec_retry_read c1state 1 :=
  read_retry_attempts_amended c1state 515 (by decide)

/-- C2 counterexample: Retry mode returns the buffered bytes without
consuming them, so bytes 65 and 66 are delivered both by the Retry read
(result `[65, 66]`, buffer unchanged) and by the following Raw read
(result `[65, 66, 0]`), contradicting the claim that no byte is delivered in
the results of two different read calls. -/
theorem retry_redelivery_counterexample :
    c2state.read 259 = ReadResult.ok [65, 66] c2state ∧
    c2state.read 0 = ReadResult.ok [65, 66, 0] { c2state with read_buffer := [] } :=
  ⟨by decide, by decide⟩

/-- C2 (amended): for the consuming read modes (Raw, NChar, Line — tags 0-2),
bytes are removed from the front of the ReadBuffer in FIFO order and no
buffer byte is delivered by two different such reads: the post-drain buffer
decomposes as `delivered ++ sep ++ retained` where `delivered` is the
buffer-derived part of the result (Raw appends one extra NUL), `sep` is at
most one discarded newline separator, and `retained` is the new buffer.
Retry mode (tag 3) is excluded: it returns the buffer without consuming it,
so its result may overlap later reads. -/
theorem consuming_read_fifo (s : Serial) (argin : Nat) (ret : List Byte)
    (s' : Serial) (hmode : argin &&& 15 < 3)
    (hread : s.read argin = ReadResult.ok ret s') :
    ∃ delivered sep,
      delivered ++ sep ++ s'.read_buffer = s.read_buffer ++ s.com.read_all.1 ∧
      (sep = [] ∨ sep = [s.newline]) ∧
      (ret = delivered ∨ ret = delivered ++ [0]) := by
  have hcases : argin &&& 15 = 0 ∨ argin &&& 15 = 1 ∨ argin &&& 15 = 2 := by omega
  rcases hcases with h | h | h
  · rw [read_raw_spec s argin h] at hread
    rcases hread with ⟨rfl, rfl⟩
    exact ⟨s.read_buffer ++ s.com.read_all.1, [], by simp, Or.inl rfl, Or.inr rfl⟩
  · have hr : s.read argin =
        ReadResult.ok ((s.read_buffer ++ s.com.read_all.1).take (argin >>> 8))
          { s with read_buffer := (s.read_buffer ++ s.com.read_all.1).drop (argin >>> 8),
                   com := s.com.read_all.2 } := by
      simp [Serial.read, h]
    rw [hr] at hread
    rcases hread with ⟨rfl, rfl⟩
    exact ⟨(s.read_buffer ++ s.com.read_all.1).take (argin >>> 8), [],
      by simp [List.take_append_drop],
      Or.inl rfl, Or.inl rfl⟩
  · have hr : s.read argin =
        ReadResult.ok (partitionByte s.newline (s.read_buffer ++ s.com.read_all.1)).1
          { s with
              read_buffer := (partitionByte s.newline (s.read_buffer ++ s.com.read_all.1)).2,
              com := s.com.read_all.2 } := by
      simp [Serial.read, h]
    rw [hr] at hread
    rcases hread with ⟨rfl, rfl⟩
    rcases partitionByte_append s.newline (s.read_buffer ++ s.com.read_all.1) with hsplit | hsplit
    · exact ⟨_, [], by simpa using hsplit, Or.inl rfl, Or.inl rfl⟩
    · exact ⟨_, [s.newline], by simpa using hsplit, Or.inr rfl, Or.inl rfl⟩

/-- Witness for C2 (amended): the Raw read of the two buffered bytes
decomposes the buffer into delivered bytes and an empty remainder. -/
theorem consuming_read_fifo_witness :
    ∃ delivered sep,
      delivered ++ sep ++ ({ c2state with read_buffer := [] } : Serial).read_buffer =
        c2state.read_buffer ++ c2state.com.read_all.1 ∧
      (sep = [] ∨ sep = [c2state.newline]) ∧
      ([65, 66, 0] = delivered ∨ [65, 66, 0] = delivered ++ [0]) :=
  consuming_read_fifo c2state 0 [65, 66, 0] { c2state with read_buffer := [] }
    (by decide) (by decide)

/-- C3 counterexample: 128 lies in the claimed range 0-255, yet
`set_newline 128` raises (Python `chr(128).encode('ascii')` is a
`UnicodeEncodeError`) instead of succeeding. -/
theorem set_newline_high_byte_counterexample :
    serial0.set_newline 128 = SetResult.err "UnicodeEncodeError" serial0 ∧
    (0 : Int) ≤ 128 ∧ (128 : Int) ≤ 255 :=
  ⟨by decide, by decide, by decide⟩

/-- C3 (amended): `set_newline v` succeeds and sets the configured newline
byte to `v` exactly for `0 ≤ v ≤ 127` (the ascii range); for
`128 ≤ v ≤ 255` it fails with `UnicodeEncodeError` and the state is
unchanged. -/
theorem set_newline_range_amended (s : Serial) (v : Int) :
    (0 ≤ v → v < 128 → s.set_newline v = SetResult.ok { s with newline := v.toNat }) ∧
    (128 ≤ v → v ≤ 255 → s.set_newline v = SetResult.err "UnicodeEncodeError" s) := by
  constructor
  · intro h0 h1
    have hc : ¬(v < 0 ∨ 1114112 ≤ v) := by omega
    simp [Serial.set_newline, hc, h1]
  · intro h0 h1
    have hc : ¬(v < 0 ∨ 1114112 ≤ v) := by omega
    have hc' : ¬v < 128 := by omega
    simp [Serial.set_newline, hc, hc']

/-- Witness for C3 (amended): `set_newline 65` succeeds and stores byte 65;
`set_newline 200` fails leaving the state untouched. -/
theorem set_newline_range_amended_witness :
    serial0.set_newline 65 = SetResult.ok { serial0 with newline := (65 : Int).toNat } ∧
    serial0.set_newline 200 = SetResult.err "UnicodeEncodeError" serial0 :=
  ⟨(set_newline_range_amended serial0 65).1 (by decide) (by decide),
   (set_newline_range_amended serial0 200).2 (by decide) (by decide)⟩

/-- C4: every configuration setter validates before mutating: whenever a
setter fails, the state it leaves behind is exactly the prior state, for all
six setters at their raw-integer entry points (the three enumerated setters
go through the enum construction used by `set_parameter`; `set_timeout` and
`set_baudrate` perform no validation in the core and never fail). -/
theorem setter_error_preserves_state (s s' : Serial) (m : String) (v : Int) :
    (s.set_newline v = SetResult.err m s' → s' = s) ∧
    (s.set_timeout v = SetResult.err m s' → s' = s) ∧
    (s.set_baudrate v = SetResult.err m s' → s' = s) ∧
    (s.set_parity_value v = SetResult.err m s' → s' = s) ∧
    (s.set_stopbits_value v = SetResult.err m s' → s' = s) ∧
    (s.set_charlength_value v = SetResult.err m s' → s' = s) := by
  refine ⟨set_newline_err_state s s' m v, ?_, ?_,
    set_parity_value_err_state s s' m v,
    set_stopbits_value_err_state s s' m v,
    set_charlength_value_err_state s s' m v⟩
  · intro h
    simp [Serial.set_timeout] at h
  · intro h
    simp [Serial.set_baudrate] at h

/-- Witness for C4: `set_parity_value 99` fails on `serial0` and, by the
theorem, leaves the state exactly `serial0`. -/
theorem setter_error_preserves_state_witness :
    serial0.set_parity_value 99 =
      SetResult.err "ValueError: not a valid Parity" serial0 ∧
    serial0 = serial0 :=
  ⟨by decide,
   (setter_error_preserves_state serial0 serial0 "ValueError: not a valid Parity" 99).2.2.2.1
     (by decide)⟩

/-- C5: `set_parameter` applies its `(tag, value)` pairs strictly in order,
each through the matching setter: any failing batch decomposes as a prefix
that was applied successfully (its final state is exactly the error state),
a first failing pair that raises on that state, and a suffix that is never
processed (the outcome is the same for every suffix). -/
theorem set_parameter_error_decomposition (s : Serial) (ps : List (Int × Int))
    (m : String) (s' : Serial) (h : s.set_parameter ps = SetResult.err m s') :
    ∃ pre tag value post,
      ps = pre ++ (tag, value) :: post ∧
      s.set_parameter pre = SetResult.ok s' ∧
      s'.set_parameter_step tag value = SetResult.err m s' ∧
      ∀ post2, s.set_parameter (pre ++ (tag, value) :: post2) = SetResult.err m s' := by
  induction ps generalizing s with
  | nil => simp [Serial.set_parameter] at h
  | cons p rest ih =>
    obtain ⟨tag, value⟩ := p
    rcases hstep : s.set_parameter_step tag value with ⟨s1⟩ | ⟨m1, s1⟩
    · have h' : s1.set_parameter rest = SetResult.err m s' := by
        rw [Serial.set_parameter, hstep] at h
        exact h
      obtain ⟨pre, t, v, post, hps, hpre, hfail, hall⟩ := ih s1 h'
      refine ⟨(tag, value) :: pre, t, v, post, by rw [hps]; rfl, ?_, hfail, ?_⟩
      · rw [Serial.set_parameter, hstep]
        exact hpre
      · intro post2
        rw [List.cons_append, Serial.set_parameter, hstep]
        exact hall post2
    · have hs1 : s1 = s := set_parameter_step_err_state s s1 m1 tag value hstep
      rw [Serial.set_parameter, hstep] at h
      cases h
      subst hs1
      refine ⟨[], tag, value, rest, rfl, rfl, hstep, ?_⟩
      intro post2
      rw [List.nil_append, Serial.set_parameter, hstep]

/-- Witness for C5: the batch `[(Baudrate, 115200), (Parity, 99)]` on
`serial0` fails on the parity pair with the baud rate already changed
(`serial1`) and the parity untouched, and the theorem decomposes it. -/
theorem set_parameter_error_decomposition_witness :
    serial0.set_parameter [(7, 115200), (4, 99)] =
      SetResult.err "ValueError: not a valid Parity" serial1 ∧
    serial1.com.baudrate = 115200 ∧
    serial1.com.parity = serial0.com.parity ∧
    (∃ pre tag value post,
      [((7 : Int), (115200 : Int)), (4, 99)] = pre ++ (tag, value) :: post ∧
      serial0.set_parameter pre = SetResult.ok serial1 ∧
      serial1.set_parameter_step tag value =
        SetResult.err "ValueError: not a valid Parity" serial1 ∧
      ∀ post2, serial0.set_parameter (pre ++ (tag, value) :: post2) =
        SetResult.err "ValueError: not a valid Parity" serial1) :=
  ⟨by decide, by decide, by decide,
   set_parameter_error_decomposition serial0 [(7, 115200), (4, 99)]
     "ValueError: not a valid Parity" serial1 (by decide)⟩

/-- C9: a `(tag, value)` pair whose tag is none of the six `Parameter` values
3-8 is silently skipped by `set_parameter`: no error is raised for it, it
changes no state, and the remaining pairs are processed as if it were absent. -/
theorem set_parameter_unknown_tag_skipped (s : Serial) (tag value : Int)
    (rest : List (Int × Int))
    (h3 : tag ≠ 3) (h4 : tag ≠ 4) (h5 : tag ≠ 5)
    (h6 : tag ≠ 6) (h7 : tag ≠ 7) (h8 : tag ≠ 8) :
    s.set_parameter ((tag, value) :: rest) = s.set_parameter rest := by
  rw [Serial.set_parameter]
  have hstep : s.set_parameter_step tag value = SetResult.ok s := by
    simp [Serial.set_parameter_step, h3, h4, h5, h6, h7, h8]
  rw [hstep]

/-- Witness for C9: tag 99 is skipped and the following baud-rate pair is
still applied. -/
theorem set_parameter_unknown_tag_skipped_witness :
    serial0.set_parameter [(99, 1), (7, 115200)] =
      serial0.set_parameter [(7, 115200)] ∧
    serial0.set_parameter [(7, 115200)] = SetResult.ok serial1 :=
  ⟨set_parameter_unknown_tag_skipped serial0 99 1 [(7, 115200)]
     (by decide) (by decide) (by decide) (by decide) (by decide) (by decide),
   by decide⟩
